import Mathlib

/-!
Shallow embedding of the Tanova CV sync service (src/tanova_sync.py).

The Python module `tanova_sync.py` defines a `TanovaCVHandler` class whose
state consists of a set of synced checksums (`synced_files`), a counter of
additions not yet persisted (`unsaved_count`), an in-memory checksum cache
keyed by path (`checksum_cache`), and the durable history file on disk.
We embed that state as the structure `HState`, where the Python `set` and
`dict` are modelled as membership / lookup functions, and the durable file
as an optional snapshot of the membership function.

The filesystem and the remote HTTP service are external effects; we model
them as explicit oracles (`FileSys`, `Remote`).  The SHA-256 digest function
is abstracted as a parameter `hash : List Nat → String` (file contents are
byte lists); no claim depends on the internals of the digest.  Network and
I/O activity that the claims count (duplicate-check calls, upload calls,
retry sleeps, file-content reads) is tracked explicitly in `Stats` /
`ChecksumResult.reads`.

`sync_file` returns a `SyncOutcome` tagging which of the Python function's
`return` sites was taken (the Python code returns a bare bool; the tags
correspond to the spec's Upload Outcome classification: `alreadySyncedLocal`
and `alreadySyncedRemote` are the `True` returns from the local-dedup and
remote-dedup hits, `synced` the `True` return after an HTTP-200 upload,
`failed` the `False` returns from the error paths, `checksumError` the
`False` return when the checksum could not be computed).
-/

namespace Tanova

/-- Model of `set.add`: Python's `self.synced_files.add(checksum)` on a set
represented by its membership function. -/
def setAdd (s : String → Bool) (c : String) : String → Bool :=
  fun x => if x = c then true else s x

/-- External filesystem oracle: `os.path.getmtime` and reading a file's
bytes (`open(file_path, 'rb')` followed by the reads).  `none` models the
call raising `OSError` (missing file, permission, I/O error). -/
structure FileSys where
  mtime : String → Option Nat
  content : String → Option (List Nat)

/-- Result of `calculate_checksum`: the returned value (`none` models the
Python `return None` on exception), the updated `checksum_cache`, and how
many times the file's bytes were (attempted to be) read. -/
structure ChecksumResult where
  checksum : Option String
  cache : String → Option (Nat × String)
  reads : Nat

/-- Embedding of `TanovaCVHandler.calculate_checksum` (tanova_sync.py lines
117-146): read the file's mtime; on a cache entry with matching mtime return
the cached digest with no byte reads; otherwise stream the bytes through the
digest, store the `(mtime, checksum)` pair, and return the digest; any
failing read yields `none` and leaves the cache unchanged. -/
def calculate_checksum (hash : List Nat → String) (fs : FileSys)
    (cache : String → Option (Nat × String)) (file_path : String) : ChecksumResult :=
  match fs.mtime file_path with
  | none => ⟨none, cache, 0⟩
  | some mtime =>
    let hit : Option String :=
      match cache file_path with
      | some (cached_mtime, cached_checksum) =>
        if cached_mtime = mtime then some cached_checksum else none
      | none => none
    match hit with
    | some cached_checksum => ⟨some cached_checksum, cache, 0⟩
    | none =>
      match fs.content file_path with
      | none => ⟨none, cache, 1⟩
      | some bytes =>
        let checksum := hash bytes
        ⟨some checksum,
         fun p => if p = file_path then some (mtime, checksum) else cache p, 1⟩

/-- Split a character list on a separator, like Python's `str.split`:
`splitOnChar '_' "a_b".toList = ["a".toList, "b".toList]`, with empty
segments kept. -/
def splitOnChar (sep : Char) : List Char → List (List Char)
  | [] => [[]]
  | c :: rest =>
    if c = sep then [] :: splitOnChar sep rest
    else
      match splitOnChar sep rest with
      | h :: t => (c :: h) :: t
      | [] => [[c]]

/-- Components of a POSIX path as produced by Python's `Path(...).parts`:
a leading `/` becomes its own first component, the rest are the non-empty
segments between slashes. -/
def pathParts (p : String) : List String :=
  let cs := p.toList
  let comps := ((splitOnChar '/' cs).filter (fun l => l ≠ [])).map List.asString
  match cs with
  | '/' :: _ => "/" :: comps
  | _ => comps

/-- Final component of a parts list, as Python's `Path(...).name` (empty for
an empty path or the bare root). -/
def pathName (parts : List String) : String :=
  match parts.getLast? with
  | none => ""
  | some l => if l = "/" then "" else l

/-- Python's `Path(...).stem` on a file name: strip the final extension,
where an extension is a trailing `.suffix` whose dot is neither the first
nor the last character of the name. -/
def pystem (name : String) : String :=
  let rev := name.toList.reverse
  let extRev := rev.takeWhile (fun ch => ch ≠ '.')
  if extRev.length = rev.length then name
  else
    let stemRev := rev.drop (extRev.length + 1)
    if stemRev = [] ∨ extRev = [] then name
    else stemRev.reverse.asString

/-- Metadata hints extracted from a path: the Python code builds a dict with
optional keys `job_hint` and `email`. -/
structure Metadata where
  job_hint : Option String
  email : Option String
deriving DecidableEq, Repr

/-- Embedding of `TanovaCVHandler.extract_metadata_from_path` (lines
148-168): the parent folder becomes `job_hint` unless it is one of the
generic folder names, and the first `_`-separated part of the stem that
contains `@` becomes `email`. -/
def extract_metadata_from_path (file_path : String) : Metadata :=
  let path_parts := pathParts file_path
  let filename := (pystem (pathName path_parts)).toList
  let job_hint : Option String :=
    if path_parts.length > 1 then
      match path_parts.dropLast.getLast? with
      | some parent_folder =>
        if parent_folder = "CVs" ∨ parent_folder = "Resumes" ∨ parent_folder = "Candidates"
        then none else some parent_folder
      | none => none
    else none
  let email : Option String :=
    if filename.contains '@' then
      ((splitOnChar '_' filename).find? (fun part => part.contains '@')).map List.asString
    else none
  ⟨job_hint, email⟩

/-- In-memory handler state plus the durable history file: `synced_files`
and `checksum_cache` are the Python set/dict as functions, `unsaved_count`
the pending-addition counter, `durable` the contents last written to
`~/.tanova/sync_history.json` (`none` = never written in this model run). -/
structure HState where
  synced_files : String → Bool
  unsaved_count : Nat
  checksum_cache : String → Option (Nat × String)
  durable : Option (String → Bool)

/-- Embedding of `TanovaCVHandler._save_sync_history` (lines 77-97): a
non-forced save below the batch threshold of 10 pending additions is a
no-op; otherwise the full checksum set is serialized to the durable file and
the pending counter reset (the model assumes the write succeeds). -/
def save_sync_history (force : Bool) (st : HState) : HState :=
  if !force && st.unsaved_count < 10 then st
  else { st with durable := some st.synced_files, unsaved_count := 0 }

/-- The `synced_files.add(checksum); unsaved_count += 1` pair performed
under `history_lock` in `sync_file` (lines 198-200 and 252-254). -/
def recordSynced (st : HState) (c : String) : HState :=
  { st with synced_files := setAdd st.synced_files c,
            unsaved_count := st.unsaved_count + 1 }

/-- One record followed by the non-forced `_save_sync_history()` call that
`sync_file` performs after it (lines 201 and 257). -/
def recordAndFlush (st : HState) (c : String) : HState :=
  save_sync_history false (recordSynced st c)

/-- Retry configuration from the handler's `__init__` (lines 50-51):
`retry_count` defaults to 3, `retry_delay` to 5. -/
structure Config where
  retry_count : Nat
  retry_delay : Nat

/-- Body of an HTTP response as far as the Python code inspects it:
`response.text` empty, a parseable JSON object whose `message` field is
`msg` (any parseable JSON body is modelled this way; the success path only
reads `candidateId`, the error path only `message`), or a non-empty body
that is not valid JSON, on which `response.json()` raises. -/
inductive RespBody
  | empty
  | jsonMsg (msg : String)
  | nonJson
deriving DecidableEq, Repr

/-- Outcome of one `POST /api/sync/check-duplicate` call: an HTTP response
with a status code and the parsed `exists` flag, or a raised exception
(connection error, timeout, unparseable body). -/
inductive CheckResp
  | resp (status : Nat) (dup : Bool)
  | exc
deriving DecidableEq, Repr

/-- Outcome of one `POST /api/sync/upload` call: an HTTP response with a
status code and body, or a raised exception. -/
inductive UploadResp
  | resp (status : Nat) (body : RespBody)
  | exc
deriving DecidableEq, Repr

/-- Whether a check-duplicate outcome takes the duplicate branch in
`sync_file` (line 194-196): status 200 and the JSON `exists` flag truthy. -/
def CheckResp.indicatesDup : CheckResp → Bool
  | .resp status dup => decide (status = 200) && dup
  | .exc => false

/-- A transient upload outcome in the sense of the spec: a raised exception
or a 5xx-class HTTP response. -/
def UploadResp.isTransient : UploadResp → Bool
  | .resp status _ => decide (500 ≤ status)
  | .exc => true

/-- Remote service oracle: `check i` / `upload i` give the outcome of the
(i+1)-th duplicate-check / upload call issued during one `sync_file`
invocation. -/
structure Remote where
  check : Nat → CheckResp
  upload : Nat → UploadResp

/-- Observable network/timing activity of one `sync_file` invocation:
number of duplicate-check calls, number of upload calls, and the sequence
of `time.sleep` delays taken between retries. -/
structure Stats where
  checkCalls : Nat
  uploadCalls : Nat
  sleeps : List Nat
deriving DecidableEq, Repr

/-- Which `return` site of `sync_file` was taken, tagged with the spec's
Upload Outcome names (the Python function returns a bare bool). -/
inductive SyncOutcome
  | alreadySyncedLocal
  | alreadySyncedRemote
  | synced
  | failed
  | checksumError
deriving DecidableEq, Repr

/-- Embedding of `TanovaCVHandler.sync_file` (lines 170-284), with explicit
fuel for the bounded self-recursion `sync_file(file_path, retry_attempt+1)`
(the guard `retry_attempt < retry_count` bounds the depth, so fuel
`retry_count + 1 - retry_attempt` always suffices and the fuel-0 arm is
unreachable from `sync_file`).  Faithful control flow: compute the checksum
(return on failure or falsy value); local dedup check; remote duplicate
check with any in-branch exception falling through to the upload; metadata
extraction; file read (an exception here lands in the generic handler,
which retries); upload; HTTP 200 with a parseable body records the checksum
and non-force-saves the history; a non-200 response first builds
`error_msg`, which RAISES when the body is non-empty non-JSON (sending
control to the generic retry-on-any-exception handler); otherwise only
5xx responses retry, up to `retry_count` retries with `retry_delay` sleeps
in between. -/
def sync_file_go (cfg : Config) (hash : List Nat → String) (fs : FileSys) (remote : Remote) :
    Nat → Nat → HState → Stats → String → SyncOutcome × HState × Stats
  | 0, _, st, stats, _ => (.failed, st, stats)
  | fuel + 1, retry_attempt, st, stats, file_path =>
    let cr := calculate_checksum hash fs st.checksum_cache file_path
    let st := { st with checksum_cache := cr.cache }
    match cr.checksum with
    | none => (.checksumError, st, stats)
    | some checksum =>
      if checksum = "" then (.checksumError, st, stats)
      else if st.synced_files checksum then (.alreadySyncedLocal, st, stats)
      else
        let cresp := remote.check stats.checkCalls
        let stats := { stats with checkCalls := stats.checkCalls + 1 }
        if cresp.indicatesDup then
          let st := save_sync_history false (recordSynced st checksum)
          (.alreadySyncedRemote, st, stats)
        else
          let _metadata := extract_metadata_from_path file_path
          match fs.content file_path with
          | none =>
            if retry_attempt < cfg.retry_count then
              let stats := { stats with sleeps := stats.sleeps ++ [cfg.retry_delay] }
              sync_file_go cfg hash fs remote fuel (retry_attempt + 1) st stats file_path
            else (.failed, st, stats)
          | some _file_content =>
            let uresp := remote.upload stats.uploadCalls
            let stats := { stats with uploadCalls := stats.uploadCalls + 1 }
            match uresp with
            | .resp status body =>
              if status = 200 then
                match body with
                | .jsonMsg _ =>
                  let st := save_sync_history false (recordSynced st checksum)
                  (.synced, st, stats)
                | _ =>
                  if retry_attempt < cfg.retry_count then
                    let stats := { stats with sleeps := stats.sleeps ++ [cfg.retry_delay] }
                    sync_file_go cfg hash fs remote fuel (retry_attempt + 1) st stats file_path
                  else (.failed, st, stats)
              else
                match body with
                | .nonJson =>
                  if retry_attempt < cfg.retry_count then
                    let stats := { stats with sleeps := stats.sleeps ++ [cfg.retry_delay] }
                    sync_file_go cfg hash fs remote fuel (retry_attempt + 1) st stats file_path
                  else (.failed, st, stats)
                | _ =>
                  if 500 ≤ status ∧ retry_attempt < cfg.retry_count then
                    let stats := { stats with sleeps := stats.sleeps ++ [cfg.retry_delay] }
                    sync_file_go cfg hash fs remote fuel (retry_attempt + 1) st stats file_path
                  else (.failed, st, stats)
            | .exc =>
              if retry_attempt < cfg.retry_count then
                let stats := { stats with sleeps := stats.sleeps ++ [cfg.retry_delay] }
                sync_file_go cfg hash fs remote fuel (retry_attempt + 1) st stats file_path
              else (.failed, st, stats)

/-- Entry point of the embedding of `sync_file`: `retry_attempt` starts at
0 and the fuel `retry_count + 1` covers the maximal retry chain. -/
def sync_file (cfg : Config) (hash : List Nat → String) (fs : FileSys) (remote : Remote)
    (st : HState) (file_path : String) : SyncOutcome × HState × Stats :=
  sync_file_go cfg hash fs remote (cfg.retry_count + 1) 0 st ⟨0, 0, []⟩ file_path

/-- Durable history file as found at startup: missing, present but failing
to parse (`json.load` or the `set(...)` conversion raises), or a parseable
JSON array of checksum strings. -/
inductive DurableFile
  | missing
  | corrupt
  | valid (l : List String)

/-- Embedding of `TanovaCVHandler._load_sync_history` (lines 66-75): a
missing or unparseable file yields the empty set (with a logged warning;
startup continues), a parseable array yields its member set. -/
def loadSyncHistory : DurableFile → (String → Bool)
  | .missing => fun _ => false
  | .corrupt => fun _ => false
  | .valid l => fun x => l.contains x

/-! ### Helper lemmas about the checksum cache -/

/-- A cache entry whose stored mtime matches the file's current mtime is
returned directly, with the cache untouched and no byte reads. -/
lemma calc_hit (hash : List Nat → String) (fs : FileSys)
    (cache : String → Option (Nat × String)) (p : String) (m : Nat) (c : String)
    (hm : fs.mtime p = some m) (hc : cache p = some (m, c)) :
    calculate_checksum hash fs cache p = ⟨some c, cache, 0⟩ := by
  simp [calculate_checksum, hm, hc]

/-- Whenever `calculate_checksum` returns a digest, the resulting cache
holds that digest under the file's current mtime. -/
lemma calc_cache_entry (hash : List Nat → String) (fs : FileSys)
    (cache : String → Option (Nat × String)) (p : String) (m : Nat) (c : String)
    (hm : fs.mtime p = some m)
    (h : (calculate_checksum hash fs cache p).checksum = some c) :
    (calculate_checksum hash fs cache p).cache p = some (m, c) := by
  cases hcp : cache p with
  | none =>
    cases hb : fs.content p with
    | none => simp [calculate_checksum, hm, hcp, hb] at h
    | some bytes =>
      have hc' : hash bytes = c := by
        simpa [calculate_checksum, hm, hcp, hb] using h
      simp [calculate_checksum, hm, hcp, hb, hc']
  | some e =>
    obtain ⟨cm, cc⟩ := e
    by_cases hcm : cm = m
    · subst hcm
      have hcc : cc = c := by
        simpa [calculate_checksum, hm, hcp] using h
      subst hcc
      simp [calculate_checksum, hm, hcp]
    · cases hb : fs.content p with
      | none => simp [calculate_checksum, hm, hcp, hcm, hb] at h
      | some bytes =>
        have hc' : hash bytes = c := by
          simpa [calculate_checksum, hm, hcp, hcm, hb] using h
        simp [calculate_checksum, hm, hcp, hcm, hb, hc']

/-! ### Claim C6 -/

/-- C6: `calculate_checksum` returns the cached digest with zero byte
reads when the cached mtime matches the file's current mtime; a differing
mtime (even with identical content: the statement holds for every
`fs.content`) or a missing entry forces recomputation from the file's bytes
and stores the `(mtime, checksum)` pair; a failing mtime read or content
read makes it return `none` instead of a checksum. -/
theorem tanova_C6 :
    (∀ (hash : List Nat → String) (fs : FileSys) cache p (m : Nat) (c : String),
      fs.mtime p = some m → cache p = some (m, c) →
      calculate_checksum hash fs cache p = ⟨some c, cache, 0⟩)
  ∧ (∀ (hash : List Nat → String) (fs : FileSys) cache p (m m' : Nat) (c' : String) bytes,
      fs.mtime p = some m → cache p = some (m', c') → m' ≠ m →
      fs.content p = some bytes →
      calculate_checksum hash fs cache p =
        ⟨some (hash bytes),
         fun q => if q = p then some (m, hash bytes) else cache q, 1⟩)
  ∧ (∀ (hash : List Nat → String) (fs : FileSys) cache p (m : Nat) bytes,
      fs.mtime p = some m → cache p = none →
      fs.content p = some bytes →
      calculate_checksum hash fs cache p =
        ⟨some (hash bytes),
         fun q => if q = p then some (m, hash bytes) else cache q, 1⟩)
  ∧ (∀ (hash : List Nat → String) (fs : FileSys) cache p,
      fs.mtime p = none → calculate_checksum hash fs cache p = ⟨none, cache, 0⟩)
  ∧ (∀ (hash : List Nat → String) (fs : FileSys) cache p (m : Nat),
      fs.mtime p = some m → fs.content p = none →
      (∀ c', cache p ≠ some (m, c')) →
      calculate_checksum hash fs cache p = ⟨none, cache, 1⟩) := by
  refine ⟨?_, ?_, ?_, ?_, ?_⟩
  · intro hash fs cache p m c hm hc
    exact calc_hit hash fs cache p m c hm hc
  · intro hash fs cache p m m' c' bytes hm hc hne hb
    simp [calculate_checksum, hm, hc, hne, hb]
  · intro hash fs cache p m bytes hm hc hb
    simp [calculate_checksum, hm, hc, hb]
  · intro hash fs cache p hm
    simp [calculate_checksum, hm]
  · intro hash fs cache p m hm hb hstale
    cases hcp : cache p with
    | none => simp [calculate_checksum, hm, hcp, hb]
    | some e =>
      obtain ⟨cm, cc⟩ := e
      have hcm : cm ≠ m := by
        intro hh
        exact hstale cc (by rw [hcp, hh])
      simp [calculate_checksum, hm, hcp, hcm, hb]

/-- Witness for C6 at concrete inputs: a matching entry is served from the
cache; a stale entry and a missing entry are recomputed; a failing mtime
read and a failing content read give `none`. -/
theorem tanova_C6_witness :
    calculate_checksum (fun _ => "h") ⟨fun _ => some 3, fun _ => some []⟩
      (fun q => if q = "a" then some (3, "c0") else none) "a" =
      ⟨some "c0", (fun q => if q = "a" then some (3, "c0") else none), 0⟩
  ∧ calculate_checksum (fun _ => "h") ⟨fun _ => some 3, fun _ => some [7]⟩
      (fun q => if q = "a" then some (2, "c0") else none) "a" =
      ⟨some "h",
       fun q => if q = "a" then some (3, "h")
                else (fun r => if r = "a" then some (2, "c0") else none) q, 1⟩
  ∧ calculate_checksum (fun _ => "h") ⟨fun _ => some 3, fun _ => some [7]⟩
      (fun _ => none) "a" =
      ⟨some "h", fun q => if q = "a" then some (3, "h") else none, 1⟩
  ∧ calculate_checksum (fun _ => "h") ⟨fun _ => none, fun _ => some [7]⟩
      (fun _ => none) "a" = ⟨none, fun _ => none, 0⟩
  ∧ calculate_checksum (fun _ => "h") ⟨fun _ => some 3, fun _ => none⟩
      (fun _ => none) "a" = ⟨none, fun _ => none, 1⟩ := by
  refine ⟨?_, ?_, ?_, ?_, ?_⟩
  · exact tanova_C6.1 _ _ _ _ 3 "c0" rfl (by decide)
  · exact tanova_C6.2.1 _ _ _ _ 3 2 "c0" [7] rfl (by decide) (by decide) rfl
  · exact tanova_C6.2.2.1 _ _ _ _ 3 [7] rfl rfl rfl
  · exact tanova_C6.2.2.2.1 _ _ _ _ rfl
  · exact tanova_C6.2.2.2.2 _ _ _ _ 3 rfl rfl (fun c' h => Option.noConfusion h)

/-! ### Claim C8 -/

/-- C8: loading the durable state file returns the persisted checksum set
(membership of the stored array) and on a missing or corrupt file returns
the empty set; the load function is total, so startup never fails on it. -/
theorem tanova_C8 :
    (∀ x, loadSyncHistory .missing x = false)
  ∧ (∀ x, loadSyncHistory .corrupt x = false)
  ∧ (∀ (l : List String) (x : String), loadSyncHistory (.valid l) x = true ↔ x ∈ l) := by
  refine ⟨fun _ => rfl, fun _ => rfl, fun l x => ?_⟩
  simp [loadSyncHistory]

/-! ### Claim C10 -/

/-- C10: metadata extraction is a total function of the path (it can never
fail a task), and a non-matching path yields absence of the corresponding
keys: with at most one path component or a generic parent folder no
`job_hint` is produced, and with no `@` in the stem no `email` is
produced. -/
theorem tanova_C10 :
    (∀ p : String, (pathParts p).length ≤ 1 → (extract_metadata_from_path p).job_hint = none)
  ∧ (∀ (p parent : String), (pathParts p).dropLast.getLast? = some parent →
      (parent = "CVs" ∨ parent = "Resumes" ∨ parent = "Candidates") →
      (extract_metadata_from_path p).job_hint = none)
  ∧ (∀ p : String, (pystem (pathName (pathParts p))).toList.contains '@' = false →
      (extract_metadata_from_path p).email = none) := by
  refine ⟨?_, ?_, ?_⟩
  · intro p hlen
    simp [extract_metadata_from_path]
    omega
  · intro p parent hpar hmem
    by_cases h : (pathParts p).length > 1
    · simp [extract_metadata_from_path, h, hpar, hmem]
    · simp [extract_metadata_from_path, h]
  · intro p h
    have h' : '@' ∉ (pystem (pathName (pathParts p))).data := by
      simpa [String.toList] using h
    simp [extract_metadata_from_path, String.toList, h']

/-- Witness for C10 at concrete paths: a bare filename yields no job hint,
a generic parent folder yields no job hint, and a stem without `@` yields
no email. -/
theorem tanova_C10_witness :
    (extract_metadata_from_path "x.txt").job_hint = none
  ∧ (extract_metadata_from_path "CVs/john.pdf").job_hint = none
  ∧ (extract_metadata_from_path "CVs/john.pdf").email = none := by
  refine ⟨?_, ?_, ?_⟩
  · exact tanova_C10.1 "x.txt" (by decide)
  · exact tanova_C10.2.1 "CVs/john.pdf" "CVs" (by decide) (Or.inl rfl)
  · exact tanova_C10.2.2 "CVs/john.pdf" (by decide)

/-! ### Helper lemmas about the sync-state set -/

/-- Adding a checksum makes it a member. -/
lemma setAdd_self (s : String → Bool) (c : String) : setAdd s c c = true := by
  simp [setAdd]

/-- Adding a checksum never removes members. -/
lemma setAdd_mono (s : String → Bool) (c x : String) (h : s x = true) :
    setAdd s c x = true := by
  by_cases hx : x = c <;> simp [setAdd, hx, h]

/-- Adding an already-present checksum leaves the set unchanged. -/
lemma setAdd_of_mem (s : String → Bool) (c : String) (h : s c = true) :
    setAdd s c = s := by
  funext x
  by_cases hx : x = c
  · subst hx; simp [setAdd, h]
  · simp [setAdd, hx]

/-- Folding `setAdd` over a list never removes members. -/
lemma foldl_setAdd_mono (cs : List String) : ∀ (s : String → Bool) (x : String),
    s x = true → cs.foldl setAdd s x = true := by
  induction cs with
  | nil => intro s x h; simpa using h
  | cons c cs ih => intro s x h; exact ih _ _ (setAdd_mono s c x h)

/-- Every element of the list is a member after folding `setAdd` over it. -/
lemma foldl_setAdd_mem (cs : List String) : ∀ (s : String → Bool) (x : String),
    x ∈ cs → cs.foldl setAdd s x = true := by
  induction cs with
  | nil => intro s x h; cases h
  | cons c cs ih =>
    intro s x h
    rcases List.mem_cons.mp h with rfl | hx
    · exact foldl_setAdd_mono cs _ _ (setAdd_self s x)
    · exact ih _ _ hx

/-- Saving never changes the in-memory checksum set. -/
lemma save_synced_eq (force : Bool) (st : HState) :
    (save_sync_history force st).synced_files = st.synced_files := by
  simp only [save_sync_history]
  split <;> rfl

/-- The record-then-save step never removes members of the checksum set. -/
lemma save_record_synced_mono (st : HState) (c x : String) (force : Bool)
    (h : st.synced_files x = true) :
    (save_sync_history force (recordSynced st c)).synced_files x = true := by
  rw [save_synced_eq]
  exact setAdd_mono _ _ _ h

/-- Below the batch threshold, each record-then-flush round just inserts the
checksum and bumps the pending counter: durable storage and the cache are
untouched. -/
lemma foldl_recordAndFlush_small (cs : List String) : ∀ st : HState,
    st.unsaved_count + cs.length ≤ 9 →
    cs.foldl recordAndFlush st =
      { st with synced_files := cs.foldl setAdd st.synced_files,
                unsaved_count := st.unsaved_count + cs.length } := by
  induction cs with
  | nil => intro st h; simp
  | cons c cs ih =>
    intro st h
    have hstep : recordAndFlush st c =
        { st with synced_files := setAdd st.synced_files c,
                  unsaved_count := st.unsaved_count + 1 } := by
      simp only [recordAndFlush, recordSynced, save_sync_history]
      rw [if_pos]
      simp only [List.length_cons] at h
      simp
      omega
    simp only [List.foldl_cons, hstep]
    rw [ih _ (by simp only [List.length_cons] at h; simp; omega)]
    simp only [HState.mk.injEq, List.length_cons, true_and, and_true]
    omega

/-! ### Claim C3 -/

/-- C3: starting from a freshly flushed state (pending counter 0), recording
9 checksums each followed by a non-forced flush leaves durable storage
untouched; after the 10th record the non-forced flush writes the full set
(every recorded checksum is in it) and resets the pending counter to 0; a
forced flush always writes the full checksum set. -/
theorem tanova_C3 :
    (∀ (st : HState) (cs : List String), st.unsaved_count = 0 → cs.length = 9 →
      (cs.foldl recordAndFlush st).durable = st.durable)
  ∧ (∀ (st : HState) (cs : List String), st.unsaved_count = 0 → cs.length = 10 →
      (cs.foldl recordAndFlush st).durable = some (cs.foldl recordAndFlush st).synced_files
      ∧ (cs.foldl recordAndFlush st).unsaved_count = 0
      ∧ ∀ c ∈ cs, (cs.foldl recordAndFlush st).synced_files c = true)
  ∧ (∀ st : HState, (save_sync_history true st).durable = some st.synced_files) := by
  refine ⟨?_, ?_, ?_⟩
  · intro st cs h0 hlen
    rw [foldl_recordAndFlush_small cs st (by omega)]
  · intro st cs h0 hlen
    have hne : cs ≠ [] := by intro hh; subst hh; simp at hlen
    obtain ⟨l, c, rfl⟩ : ∃ l c, cs = l ++ [c] :=
      ⟨cs.dropLast, cs.getLast hne, (List.dropLast_append_getLast hne).symm⟩
    have hlen9 : l.length = 9 := by simp at hlen; omega
    rw [List.foldl_append, foldl_recordAndFlush_small l st (by omega)]
    simp only [List.foldl_cons, List.foldl_nil, recordAndFlush, recordSynced,
      save_sync_history, h0, hlen9]
    rw [if_neg (by simp)]
    refine ⟨rfl, rfl, ?_⟩
    intro x hx
    rcases List.mem_append.mp hx with hx | hx
    · exact setAdd_mono _ _ _ (foldl_setAdd_mem l _ x hx)
    · rcases List.mem_singleton.mp hx with rfl
      exact setAdd_self _ _
  · intro st
    simp [save_sync_history]

/-- Witness for C3 at a concrete state and concrete checksum lists: 9
record-flush rounds leave durable storage at its initial `none`; the 10th
round writes the full set and resets the counter; a forced flush writes. -/
theorem tanova_C3_witness :
    ((["c1","c2","c3","c4","c5","c6","c7","c8","c9"].foldl recordAndFlush
        ⟨fun _ => false, 0, fun _ => none, none⟩).durable = none)
  ∧ ((["c1","c2","c3","c4","c5","c6","c7","c8","c9","c10"].foldl recordAndFlush
        ⟨fun _ => false, 0, fun _ => none, none⟩).durable =
      some (["c1","c2","c3","c4","c5","c6","c7","c8","c9","c10"].foldl recordAndFlush
        ⟨fun _ => false, 0, fun _ => none, none⟩).synced_files
      ∧ (["c1","c2","c3","c4","c5","c6","c7","c8","c9","c10"].foldl recordAndFlush
        ⟨fun _ => false, 0, fun _ => none, none⟩).unsaved_count = 0
      ∧ ∀ c ∈ ["c1","c2","c3","c4","c5","c6","c7","c8","c9","c10"],
        (["c1","c2","c3","c4","c5","c6","c7","c8","c9","c10"].foldl recordAndFlush
          ⟨fun _ => false, 0, fun _ => none, none⟩).synced_files c = true)
  ∧ (save_sync_history true ⟨fun _ => false, 0, fun _ => none, none⟩).durable =
      some (⟨fun _ => false, 0, fun _ => none, none⟩ : HState).synced_files := by
  refine ⟨?_, ?_, ?_⟩
  · exact tanova_C3.1 ⟨fun _ => false, 0, fun _ => none, none⟩ _ rfl (by decide)
  · exact tanova_C3.2.1 ⟨fun _ => false, 0, fun _ => none, none⟩ _ rfl (by decide)
  · exact tanova_C3.2.2 ⟨fun _ => false, 0, fun _ => none, none⟩

/-! ### Helper lemmas about the upload task -/

/-- The upload-call counter never decreases across a `sync_file_go` run. -/
lemma go_uploadCalls_mono (cfg : Config) (hash : List Nat → String) (fs : FileSys)
    (remote : Remote) (p : String) :
    ∀ (f a : Nat) (st : HState) (stats : Stats),
      stats.uploadCalls ≤ (sync_file_go cfg hash fs remote f a st stats p).2.2.uploadCalls := by
  intro f
  induction f with
  | zero => intro a st stats; simp [sync_file_go]
  | succ n ih =>
    intro a st stats
    simp only [sync_file_go]
    repeat' split
    all_goals first
      | exact le_refl _
      | exact Nat.le_succ _
      | exact le_trans (by simp) (ih _ _ _)

/-- Membership of the sync-state set is preserved by a `sync_file_go` run:
checksums are only ever added. -/
lemma go_synced_mono (cfg : Config) (hash : List Nat → String) (fs : FileSys)
    (remote : Remote) (p : String) :
    ∀ (f a : Nat) (st : HState) (stats : Stats) (x : String),
      st.synced_files x = true →
      ((sync_file_go cfg hash fs remote f a st stats p).2.1).synced_files x = true := by
  intro f
  induction f with
  | zero => intro a st stats x h; simpa [sync_file_go] using h
  | succ n ih =>
    intro a st stats x h
    simp only [sync_file_go]
    repeat' split
    all_goals first
      | exact h
      | exact ih _ _ _ _ (by simpa using h)
      | exact save_record_synced_mono _ _ _ _ (by simpa using h)

/-- Structure eta for the handler state: updating the cache with itself is
the identity. -/
lemma hstate_eta (st : HState) :
    ({ st with checksum_cache := st.checksum_cache } : HState) = st := rfl

/-- Appending one delay and then `k` more delays is appending `k + 1`. -/
lemma sleeps_concat (l : List Nat) (d k : Nat) :
    (l ++ [d]) ++ List.replicate k d = l ++ List.replicate (k + 1) d := by
  simp [List.replicate_succ]

/-- In a state whose checksum cache already holds the file's digest, if the
duplicate check never reports a duplicate and every upload outcome is
transient (a 5xx response or a raised exception), `sync_file_go` performs
one duplicate check and one upload per remaining attempt (that is,
`retry_count + 1 - a` of each), sleeps `retry_delay` between consecutive
attempts, terminates `failed`, and leaves the state unchanged. -/
lemma go_transient (cfg : Config) (hash : List Nat → String) (fs : FileSys)
    (remote : Remote) (p c : String) (m : Nat) (bytes : List Nat)
    (hm : fs.mtime p = some m) (hb : fs.content p = some bytes) (hc : c ≠ "")
    (hchk : ∀ i, (remote.check i).indicatesDup = false)
    (hup : ∀ i, (remote.upload i).isTransient = true) :
    ∀ (f a : Nat) (st : HState) (stats : Stats),
      st.checksum_cache p = some (m, c) → st.synced_files c = false →
      a ≤ cfg.retry_count → cfg.retry_count < a + f →
      sync_file_go cfg hash fs remote f a st stats p =
        (.failed, st,
          ⟨stats.checkCalls + (cfg.retry_count + 1 - a),
           stats.uploadCalls + (cfg.retry_count + 1 - a),
           stats.sleeps ++ List.replicate (cfg.retry_count - a) cfg.retry_delay⟩) := by
  intro f
  induction f with
  | zero => intro a st stats _ _ ha hf; exact absurd hf (by omega)
  | succ n ih =>
    intro a st stats hcache hsy ha hf
    have hcalc := calc_hit hash fs st.checksum_cache p m c hm hcache
    have htail :
        (if a < cfg.retry_count then
            sync_file_go cfg hash fs remote n (a + 1) st
              ⟨stats.checkCalls + 1, stats.uploadCalls + 1,
               stats.sleeps ++ [cfg.retry_delay]⟩ p
          else
            ((.failed : SyncOutcome), st,
             (⟨stats.checkCalls + 1, stats.uploadCalls + 1, stats.sleeps⟩ : Stats))) =
        ((.failed : SyncOutcome), st,
          (⟨stats.checkCalls + (cfg.retry_count + 1 - a),
            stats.uploadCalls + (cfg.retry_count + 1 - a),
            stats.sleeps ++ List.replicate (cfg.retry_count - a) cfg.retry_delay⟩ : Stats)) := by
      by_cases hlt : a < cfg.retry_count
      · rw [if_pos hlt,
          ih (a + 1) st ⟨stats.checkCalls + 1, stats.uploadCalls + 1,
            stats.sleeps ++ [cfg.retry_delay]⟩ hcache hsy (by omega) (by omega)]
        have hrep : cfg.retry_count - (a + 1) + 1 = cfg.retry_count - a := by omega
        simp only [Prod.mk.injEq, Stats.mk.injEq, sleeps_concat, hrep, true_and,
          and_true]
        omega
      · rw [if_neg hlt]
        have ha' : a = cfg.retry_count := by omega
        subst ha'
        simp
    simp only [sync_file_go, hcalc, hstate_eta]
    simp only [hc, hsy, hchk]
    simp only [hb]
    cases hu : remote.upload stats.uploadCalls with
    | resp status body =>
      have htr := hup stats.uploadCalls
      rw [hu] at htr
      simp only [UploadResp.isTransient, decide_eq_true_eq] at htr
      have h200 : ¬ status = 200 := by omega
      cases body with
      | nonJson => simpa [h200] using htail
      | jsonMsg msg => simpa [h200, and_iff_right htr] using htail
      | empty => simpa [h200, and_iff_right htr] using htail
    | exc => simpa using htail

/-- Record-then-save never changes the checksum cache. -/
lemma save_record_cache (force : Bool) (st : HState) (c : String) :
    (save_sync_history force (recordSynced st c)).checksum_cache = st.checksum_cache := by
  simp only [save_sync_history, recordSynced]
  split <;> rfl

/-- Record-then-save never changes the set beyond inserting the checksum. -/
lemma save_record_synced (force : Bool) (st : HState) (c : String) :
    (save_sync_history force (recordSynced st c)).synced_files =
      setAdd st.synced_files c := by
  rw [save_synced_eq]
  rfl

/-- A checksum found in the local sync state short-circuits `sync_file`:
no duplicate-check call, no upload call, no sleeps, outcome
`alreadySyncedLocal`, and only the checksum cache possibly updated. -/
lemma sync_local_hit (cfg : Config) (hash : List Nat → String) (fs : FileSys)
    (remote : Remote) (st : HState) (p c : String)
    (hcalc : (calculate_checksum hash fs st.checksum_cache p).checksum = some c)
    (hc : c ≠ "") (hsy : st.synced_files c = true) :
    sync_file cfg hash fs remote st p =
      (.alreadySyncedLocal,
       { st with checksum_cache := (calculate_checksum hash fs st.checksum_cache p).cache },
       ⟨0, 0, []⟩) := by
  obtain ⟨C, R, hfull⟩ :
      ∃ C R, calculate_checksum hash fs st.checksum_cache p = ⟨some c, C, R⟩ :=
    ⟨_, _, by rw [← hcalc]⟩
  rw [hfull]
  unfold sync_file
  simp only [sync_file_go, hfull]
  simp [hc, hsy]

/-! ### Claim C1 -/

/-- C1: a checksum already in the local sync state makes `sync_file` return
the local already-synced outcome with zero duplicate-check calls, zero
upload calls and the sync state (set, pending counter, durable file)
unchanged; and a fresh file whose first pass uploads successfully (exactly
one upload call) is resolved by the second pass via the local check with
zero network calls — so at most one upload call happens across both
passes. -/
theorem tanova_C1 :
    (∀ (cfg : Config) (hash : List Nat → String) (fs : FileSys) (remote : Remote)
        (st : HState) (p c : String),
      (calculate_checksum hash fs st.checksum_cache p).checksum = some c → c ≠ "" →
      st.synced_files c = true →
      ∃ st' : HState,
        sync_file cfg hash fs remote st p = (.alreadySyncedLocal, st', ⟨0, 0, []⟩)
        ∧ st'.synced_files = st.synced_files
        ∧ st'.unsaved_count = st.unsaved_count
        ∧ st'.durable = st.durable)
  ∧ (∀ (cfg : Config) (hash : List Nat → String) (fs : FileSys) (remote : Remote)
        (st : HState) (p c msg : String) (m : Nat) (bytes : List Nat),
      fs.mtime p = some m →
      (calculate_checksum hash fs st.checksum_cache p).checksum = some c → c ≠ "" →
      st.synced_files c = false →
      (remote.check 0).indicatesDup = false →
      fs.content p = some bytes →
      remote.upload 0 = .resp 200 (.jsonMsg msg) →
      ∃ st1 st2 : HState,
        sync_file cfg hash fs remote st p = (.synced, st1, ⟨1, 1, []⟩)
        ∧ sync_file cfg hash fs remote st1 p = (.alreadySyncedLocal, st2, ⟨0, 0, []⟩)
        ∧ st2.synced_files = st1.synced_files
        ∧ st2.unsaved_count = st1.unsaved_count
        ∧ st2.durable = st1.durable) := by
  constructor
  · intro cfg hash fs remote st p c hcalc hc hsy
    exact ⟨_, sync_local_hit cfg hash fs remote st p c hcalc hc hsy, rfl, rfl, rfl⟩
  · intro cfg hash fs remote st p c msg m bytes hm hcalc hc hsy hdup hb hup
    obtain ⟨C, R, hfull⟩ :
        ∃ C R, calculate_checksum hash fs st.checksum_cache p = ⟨some c, C, R⟩ :=
      ⟨_, _, by rw [← hcalc]⟩
    have hCp : C p = some (m, c) := by
      have := calc_cache_entry hash fs st.checksum_cache p m c hm hcalc
      rwa [hfull] at this
    have hpass1 : sync_file cfg hash fs remote st p =
        (.synced, save_sync_history false (recordSynced { st with checksum_cache := C } c),
         ⟨1, 1, []⟩) := by
      unfold sync_file
      simp only [sync_file_go, hfull]
      simp [hc, hsy, hdup, hb, hup]
    have hcache1 :
        (save_sync_history false (recordSynced { st with checksum_cache := C } c)).checksum_cache
          = C := save_record_cache false _ c
    have hcalc1 :
        (calculate_checksum hash fs
          (save_sync_history false
            (recordSynced { st with checksum_cache := C } c)).checksum_cache p).checksum
          = some c := by
      rw [hcache1, calc_hit hash fs C p m c hm hCp]
    have hsy1 :
        (save_sync_history false
          (recordSynced { st with checksum_cache := C } c)).synced_files c = true := by
      rw [save_record_synced]
      exact setAdd_self _ _
    exact ⟨_, _, hpass1, sync_local_hit cfg hash fs remote _ p c hcalc1 hc hsy1,
      rfl, rfl, rfl⟩

/-- Witness for C1: a state already containing the file's digest resolves
locally with zero network calls, and a fresh file is uploaded once on the
first pass and resolved locally on the second. -/
theorem tanova_C1_witness :
    (∃ st' : HState,
      sync_file ⟨3, 5⟩ (fun _ => "h1") ⟨fun _ => some 1, fun _ => some [1]⟩
          ⟨fun _ => .exc, fun _ => .exc⟩
          ⟨fun x => decide (x = "h1"), 4, fun _ => none, none⟩ "cv.pdf" =
        (.alreadySyncedLocal, st', ⟨0, 0, []⟩)
      ∧ st'.synced_files = (⟨fun x => decide (x = "h1"), 4, fun _ => none, none⟩ : HState).synced_files
      ∧ st'.unsaved_count = (⟨fun x => decide (x = "h1"), 4, fun _ => none, none⟩ : HState).unsaved_count
      ∧ st'.durable = (⟨fun x => decide (x = "h1"), 4, fun _ => none, none⟩ : HState).durable)
  ∧ (∃ st1 st2 : HState,
      sync_file ⟨3, 5⟩ (fun _ => "h1") ⟨fun _ => some 1, fun _ => some [1]⟩
          ⟨fun _ => .resp 200 false, fun _ => .resp 200 (.jsonMsg "ok")⟩
          ⟨fun _ => false, 0, fun _ => none, none⟩ "cv.pdf" =
        (.synced, st1, ⟨1, 1, []⟩)
      ∧ sync_file ⟨3, 5⟩ (fun _ => "h1") ⟨fun _ => some 1, fun _ => some [1]⟩
          ⟨fun _ => .resp 200 false, fun _ => .resp 200 (.jsonMsg "ok")⟩
          st1 "cv.pdf" =
        (.alreadySyncedLocal, st2, ⟨0, 0, []⟩)
      ∧ st2.synced_files = st1.synced_files
      ∧ st2.unsaved_count = st1.unsaved_count
      ∧ st2.durable = st1.durable) := by
  constructor
  · exact tanova_C1.1 ⟨3, 5⟩ (fun _ => "h1") ⟨fun _ => some 1, fun _ => some [1]⟩
      ⟨fun _ => .exc, fun _ => .exc⟩
      ⟨fun x => decide (x = "h1"), 4, fun _ => none, none⟩ "cv.pdf" "h1"
      rfl (by decide) (by decide)
  · exact tanova_C1.2 ⟨3, 5⟩ (fun _ => "h1") ⟨fun _ => some 1, fun _ => some [1]⟩
      ⟨fun _ => .resp 200 false, fun _ => .resp 200 (.jsonMsg "ok")⟩
      ⟨fun _ => false, 0, fun _ => none, none⟩ "cv.pdf" "h1" "ok" 1 [1]
      rfl rfl (by decide) rfl rfl rfl rfl

/-! ### Claim C2 (corrected) -/

/-- C2 counterexample to the claim as stated: with the default
`retry_count = 3` and every upload attempt transient (HTTP 503), the task
makes 4 upload attempts, not exactly 3 as the claim says. -/
theorem tanova_C2_counterexample :
    (sync_file ⟨3, 5⟩ (fun _ => "h1") ⟨fun _ => some 1, fun _ => some [1]⟩
        ⟨fun _ => .resp 200 false, fun _ => .resp 503 .empty⟩
        ⟨fun _ => false, 0, fun _ => none, none⟩ "cv.pdf").2.2.uploadCalls = 4
    ∧ ¬ ((sync_file ⟨3, 5⟩ (fun _ => "h1") ⟨fun _ => some 1, fun _ => some [1]⟩
        ⟨fun _ => .resp 200 false, fun _ => .resp 503 .empty⟩
        ⟨fun _ => false, 0, fun _ => none, none⟩ "cv.pdf").2.2.uploadCalls = 3) := by
  decide

/-- C2 amended: a task whose every upload attempt is transient makes
exactly `retry_count + 1` upload attempts (the initial attempt plus
`retry_count` retries; 4 with the default configuration), with the
configured delay slept between consecutive attempts, and terminates as
Failed with the sync state unchanged. -/
theorem tanova_C2 (cfg : Config) (hash : List Nat → String) (fs : FileSys)
    (remote : Remote) (st : HState) (p c : String) (m : Nat) (bytes : List Nat)
    (hm : fs.mtime p = some m)
    (hcalc : (calculate_checksum hash fs st.checksum_cache p).checksum = some c)
    (hc : c ≠ "") (hsy : st.synced_files c = false)
    (hb : fs.content p = some bytes)
    (hchk : ∀ i, (remote.check i).indicatesDup = false)
    (hup : ∀ i, (remote.upload i).isTransient = true) :
    ∃ st' : HState,
      sync_file cfg hash fs remote st p =
        (.failed, st',
         ⟨cfg.retry_count + 1, cfg.retry_count + 1,
          List.replicate cfg.retry_count cfg.retry_delay⟩)
      ∧ st'.synced_files = st.synced_files
      ∧ st'.unsaved_count = st.unsaved_count
      ∧ st'.durable = st.durable := by
  obtain ⟨C, R, hfull⟩ :
      ∃ C R, calculate_checksum hash fs st.checksum_cache p = ⟨some c, C, R⟩ :=
    ⟨_, _, by rw [← hcalc]⟩
  have hCp : C p = some (m, c) := by
    have := calc_cache_entry hash fs st.checksum_cache p m c hm hcalc
    rwa [hfull] at this
  have hhit := calc_hit hash fs C p m c hm hCp
  refine ⟨{ st with checksum_cache := C }, ?_, rfl, rfl, rfl⟩
  unfold sync_file
  have hswap :
      sync_file_go cfg hash fs remote (cfg.retry_count + 1) 0 st ⟨0, 0, []⟩ p =
        sync_file_go cfg hash fs remote (cfg.retry_count + 1) 0
          { st with checksum_cache := C } ⟨0, 0, []⟩ p := by
    conv_lhs => rw [sync_file_go]
    conv_rhs => rw [sync_file_go]
    simp only [hfull, hhit]
  rw [hswap,
    go_transient cfg hash fs remote p c m bytes hm hb hc hchk hup
      (cfg.retry_count + 1) 0 { st with checksum_cache := C } ⟨0, 0, []⟩
      hCp hsy (by omega) (by omega)]
  simp

/-- Witness for C2 at a concrete configuration (`retry_count = 2`,
`retry_delay = 7`) and an always-raising remote: 3 upload attempts, two
7-unit sleeps, Failed, state unchanged. -/
theorem tanova_C2_witness :
    ∃ st' : HState,
      sync_file ⟨2, 7⟩ (fun _ => "h1") ⟨fun _ => some 1, fun _ => some [1]⟩
          ⟨fun _ => .exc, fun _ => .exc⟩
          ⟨fun _ => false, 0, fun _ => none, none⟩ "cv.pdf" =
        (.failed, st', ⟨3, 3, [7, 7]⟩)
      ∧ st'.synced_files = (⟨fun _ => false, 0, fun _ => none, none⟩ : HState).synced_files
      ∧ st'.unsaved_count = (⟨fun _ => false, 0, fun _ => none, none⟩ : HState).unsaved_count
      ∧ st'.durable = (⟨fun _ => false, 0, fun _ => none, none⟩ : HState).durable :=
  tanova_C2 ⟨2, 7⟩ (fun _ => "h1") ⟨fun _ => some 1, fun _ => some [1]⟩
    ⟨fun _ => .exc, fun _ => .exc⟩
    ⟨fun _ => false, 0, fun _ => none, none⟩ "cv.pdf" "h1" 1 [1]
    rfl rfl (by decide) rfl rfl (fun _ => rfl) (fun _ => rfl)

/-! ### Claim C4 -/

/-- C4: when the remote duplicate check raises or returns a non-200
response, the task does not fail at that point: it proceeds to attempt the
upload (the final upload-call count is at least 1), whatever the remote
does afterwards. -/
theorem tanova_C4 (cfg : Config) (hash : List Nat → String) (fs : FileSys)
    (remote : Remote) (st : HState) (p c : String) (bytes : List Nat)
    (hcalc : (calculate_checksum hash fs st.checksum_cache p).checksum = some c)
    (hc : c ≠ "") (hsy : st.synced_files c = false)
    (hfail : remote.check 0 = .exc ∨
      ∃ status dup, remote.check 0 = .resp status dup ∧ status ≠ 200)
    (hb : fs.content p = some bytes) :
    1 ≤ (sync_file cfg hash fs remote st p).2.2.uploadCalls := by
  have hdup : (remote.check 0).indicatesDup = false := by
    rcases hfail with h | ⟨status, dup, h, hne⟩
    · rw [h]; rfl
    · rw [h]; simp [CheckResp.indicatesDup, hne]
  obtain ⟨C, R, hfull⟩ :
      ∃ C R, calculate_checksum hash fs st.checksum_cache p = ⟨some c, C, R⟩ :=
    ⟨_, _, by rw [← hcalc]⟩
  unfold sync_file
  simp only [sync_file_go, hfull]
  simp only [hc, hsy, hdup, hb]
  repeat' split
  all_goals first
    | exact go_uploadCalls_mono cfg hash fs remote p _ _ _ _
    | exact le_trans (by simp) (go_uploadCalls_mono cfg hash fs remote p _ _ _ _)
    | simp_all

/-- Witness for C4: a duplicate check that raises still leads to an upload
attempt. -/
theorem tanova_C4_witness :
    1 ≤ (sync_file ⟨3, 5⟩ (fun _ => "h1") ⟨fun _ => some 1, fun _ => some [1]⟩
        ⟨fun _ => .exc, fun _ => .resp 200 (.jsonMsg "ok")⟩
        ⟨fun _ => false, 0, fun _ => none, none⟩ "cv.pdf").2.2.uploadCalls :=
  tanova_C4 ⟨3, 5⟩ (fun _ => "h1") ⟨fun _ => some 1, fun _ => some [1]⟩
    ⟨fun _ => .exc, fun _ => .resp 200 (.jsonMsg "ok")⟩
    ⟨fun _ => false, 0, fun _ => none, none⟩ "cv.pdf" "h1" [1]
    rfl (by decide) rfl (Or.inl rfl) rfl

/-! ### Claim C5 (code bug) -/

/-- C5 evaluated at the failing input: an upload that always returns HTTP
400 with a non-empty non-JSON body is retried (the `error_msg` computation
raises, landing in the generic retry-on-exception handler), producing 4
upload attempts instead of the single non-retried attempt the claim and
the code's own `Retry on server errors` comment prescribe; with the same
400 status but a parseable JSON body the code behaves as claimed (exactly
1 upload attempt, Failed). -/
theorem tanova_C5 :
    (sync_file ⟨3, 5⟩ (fun _ => "h1") ⟨fun _ => some 1, fun _ => some [1]⟩
        ⟨fun _ => .resp 200 false, fun _ => .resp 400 .nonJson⟩
        ⟨fun _ => false, 0, fun _ => none, none⟩ "cv.pdf").2.2.uploadCalls = 4
    ∧ (sync_file ⟨3, 5⟩ (fun _ => "h1") ⟨fun _ => some 1, fun _ => some [1]⟩
        ⟨fun _ => .resp 200 false, fun _ => .resp 400 .nonJson⟩
        ⟨fun _ => false, 0, fun _ => none, none⟩ "cv.pdf").1 = .failed
    ∧ (sync_file ⟨3, 5⟩ (fun _ => "h1") ⟨fun _ => some 1, fun _ => some [1]⟩
        ⟨fun _ => .resp 200 false, fun _ => .resp 400 (.jsonMsg "bad request")⟩
        ⟨fun _ => false, 0, fun _ => none, none⟩ "cv.pdf").2.2.uploadCalls = 1
    ∧ (sync_file ⟨3, 5⟩ (fun _ => "h1") ⟨fun _ => some 1, fun _ => some [1]⟩
        ⟨fun _ => .resp 200 false, fun _ => .resp 400 (.jsonMsg "bad request")⟩
        ⟨fun _ => false, 0, fun _ => none, none⟩ "cv.pdf").1 = .failed := by
  decide

/-! ### Claim C7 -/

/-- C7: the sync-state checksum set is monotonic — recording only adds,
saving never changes it, a whole `sync_file` run never removes a member —
and recording an already-present checksum leaves the set unchanged. -/
theorem tanova_C7 :
    (∀ (st : HState) (c x : String), st.synced_files x = true →
      (recordSynced st c).synced_files x = true)
  ∧ (∀ (st : HState) (c : String), st.synced_files c = true →
      (recordSynced st c).synced_files = st.synced_files)
  ∧ (∀ (force : Bool) (st : HState),
      (save_sync_history force st).synced_files = st.synced_files)
  ∧ (∀ (cfg : Config) (hash : List Nat → String) (fs : FileSys) (remote : Remote)
      (st : HState) (p x : String), st.synced_files x = true →
      ((sync_file cfg hash fs remote st p).2.1).synced_files x = true) := by
  refine ⟨?_, ?_, ?_, ?_⟩
  · intro st c x h
    exact setAdd_mono _ _ _ h
  · intro st c h
    exact setAdd_of_mem _ _ h
  · exact save_synced_eq
  · intro cfg hash fs remote st p x h
    exact go_synced_mono cfg hash fs remote p _ _ _ _ _ h

/-- Witness for C7 at concrete states: recording preserves an existing
member, re-recording a present checksum is a set no-op, saving preserves
the set, and a full `sync_file` run preserves membership. -/
theorem tanova_C7_witness :
    (recordSynced ⟨fun x => decide (x = "h0"), 0, fun _ => none, none⟩ "c1").synced_files "h0" = true
  ∧ (recordSynced ⟨fun x => decide (x = "h0"), 0, fun _ => none, none⟩ "h0").synced_files =
      (⟨fun x => decide (x = "h0"), 0, fun _ => none, none⟩ : HState).synced_files
  ∧ (save_sync_history false ⟨fun x => decide (x = "h0"), 3, fun _ => none, none⟩).synced_files =
      (⟨fun x => decide (x = "h0"), 3, fun _ => none, none⟩ : HState).synced_files
  ∧ ((sync_file ⟨3, 5⟩ (fun _ => "h1") ⟨fun _ => some 1, fun _ => some [1]⟩
        ⟨fun _ => .resp 200 false, fun _ => .resp 200 (.jsonMsg "ok")⟩
        ⟨fun x => decide (x = "h0"), 0, fun _ => none, none⟩ "cv.pdf").2.1).synced_files "h0" = true := by
  refine ⟨?_, ?_, ?_, ?_⟩
  · exact tanova_C7.1 ⟨fun x => decide (x = "h0"), 0, fun _ => none, none⟩ "c1" "h0" (by decide)
  · exact tanova_C7.2.1 ⟨fun x => decide (x = "h0"), 0, fun _ => none, none⟩ "h0" (by decide)
  · exact tanova_C7.2.2.1 false ⟨fun x => decide (x = "h0"), 3, fun _ => none, none⟩
  · exact tanova_C7.2.2.2 ⟨3, 5⟩ (fun _ => "h1") ⟨fun _ => some 1, fun _ => some [1]⟩
      ⟨fun _ => .resp 200 false, fun _ => .resp 200 (.jsonMsg "ok")⟩
      ⟨fun x => decide (x = "h0"), 0, fun _ => none, none⟩ "cv.pdf" "h0" (by decide)

end Tanova
